import Mathlib

/-
Verification development for the patient-appointment-system repository.

Shallow embedding of the slot-reservation core:
  * src/services/cache_service.py        (Lock Manager)
  * src/services/availability_service.py (Slot Store, Hold Tracker, search)
  * src/services/appointment_service.py  (Booking Orchestrator)
  * src/services/waitlist_service.py     (Waitlist Queue)

Modelling conventions:
  * Python dicts (which preserve insertion order and are iterated with
    .values()) are association lists `List (String × V)`; `dictGet`,
    `dictSet`, `dictDel` mirror d.get / d[k] = v / del d[k].
  * datetime.utcnow() is an explicit `now : Nat` parameter (seconds);
    datetime.date and datetime.time are `Nat` (ordinal day) and `Time`
    (hour, minute); timedelta arithmetic is Nat arithmetic in seconds.
  * uuid-generated fresh identifiers are modelled by a per-service
    counter (`next_id`); freshness of uuids becomes a counter increment.
  * raised ValueError exceptions become `Except ServiceError`, one
    constructor per distinct message in the source.
  * Python's stable list.sort(key=...) is modelled by the stable
    List.insertionSort on the same key order.
-/

namespace PAS

/-- Wall-clock time of day (datetime.time): hour and minute. -/
structure Time where
  hour : Nat
  minute : Nat
deriving DecidableEq

/-- A point in time (datetime.datetime) split into its calendar day and
time of day, mirroring Python's dt.date() and dt.time() projections. -/
structure DateTime where
  date : Nat
  time : Time
deriving DecidableEq

/-- dt + timedelta(minutes := m), with day rollover. -/
def DateTime.addMinutes (dt : DateTime) (m : Nat) : DateTime :=
  let total := dt.time.hour * 60 + dt.time.minute + m
  ⟨dt.date + total / 1440, ⟨(total % 1440) / 60, (total % 1440) % 60⟩⟩

/-- Python truthiness of an Optional[str]: None and "" are falsy. -/
def strTruthy : Option String → Bool
  | none => false
  | some s => !(s == "")

/-- Association-list embedding of dict.get. -/
def dictGet {V : Type} (d : List (String × V)) (k : String) : Option V :=
  (d.find? (fun e => e.1 == k)).map (fun e => e.2)

/-- Association-list embedding of d[k] = v: overwrite in place if the key
is present, else append (Python dicts keep insertion order). -/
def dictSet {V : Type} (d : List (String × V)) (k : String) (v : V) :
    List (String × V) :=
  if (d.find? (fun e => e.1 == k)).isSome then
    d.map (fun e => if e.1 == k then (k, v) else e)
  else
    d ++ [(k, v)]

/-- Association-list embedding of del d[k]. -/
def dictDel {V : Type} (d : List (String × V)) (k : String) :
    List (String × V) :=
  d.filter (fun e => !(e.1 == k))

/-- Modify the first element of a list satisfying p (the for-loop with
break used by mark_slot_booked / mark_slot_available / hold_slot). -/
def updateFirst {α : Type} (p : α → Bool) (f : α → α) : List α → List α
  | [] => []
  | x :: xs => if p x then f x :: xs else x :: updateFirst p f xs

/-! ### Lock Manager (CacheService, src/services/cache_service.py) -/

/-- A lock record: the dict {"acquired_at": ..., "expires_at": ...}
stored in CacheService.locks. -/
structure LockRecord where
  acquired_at : Nat
  expires_at : Nat
deriving DecidableEq

/-- The CacheService.locks dict. -/
abbrev LockTable := List (String × LockRecord)

/-- CacheService.acquire_lock: if a record for key exists and its
expires_at > now, return False with no change; otherwise delete any
expired record and install {acquired_at = now, expires_at = now + ttl},
returning True. -/
def acquire_lock (locks : LockTable) (key : String) (ttl : Nat) (now : Nat) :
    Bool × LockTable :=
  match dictGet locks key with
  | some lock =>
    if now < lock.expires_at then
      (false, locks)
    else
      (true, dictSet (dictDel locks key) key ⟨now, now + ttl⟩)
  | none => (true, dictSet locks key ⟨now, now + ttl⟩)

/-- CacheService.release_lock: delete the record for key if present. -/
def release_lock (locks : LockTable) (key : String) : LockTable :=
  if (dictGet locks key).isSome then dictDel locks key else locks

/-- CacheService.extend_lock: reset expires_at to now + ttl if a record
for key exists, returning whether it did. -/
def extend_lock (locks : LockTable) (key : String) (ttl : Nat) (now : Nat) :
    Bool × LockTable :=
  match dictGet locks key with
  | some lock =>
    (true, dictSet locks key ⟨lock.acquired_at, now + ttl⟩)
  | none => (false, locks)

/-! ### Dictionary lemmas -/

theorem dictGet_dictSet_same {V : Type} (d : List (String × V)) (k : String)
    (v : V) : dictGet (dictSet d k v) k = some v := by
  unfold dictGet dictSet
  cases hfind : d.find? (fun e => e.1 == k) with
  | none =>
    simp only [hfind, Option.isSome_none, Bool.false_eq_true, if_false]
    rw [List.find?_append]
    have hnone : List.find? (fun e => e.1 == k) d = none := hfind
    simp [hnone]
  | some e =>
    simp only [hfind, Option.isSome_some, if_true]
    induction d with
    | nil => simp at hfind
    | cons x xs ih =>
      by_cases hx : x.1 == k
      · simp [List.find?, hx]
      · rw [List.find?_cons_of_neg _ (by simpa using hx)] at hfind
        simp only [List.map_cons, hx, Bool.false_eq_true, if_false]
        rw [List.find?_cons_of_neg _ (by simpa using hx)]
        exact ih hfind

theorem find?_map_keyOverwrite {V : Type} (d : List (String × V))
    (k k' : String) (v : V) (h : k' ≠ k) :
    (d.map (fun e => if e.1 == k then (k, v) else e)).find?
        (fun e => e.1 == k')
      = d.find? (fun e => e.1 == k') := by
  induction d with
  | nil => rfl
  | cons x xs ih =>
    simp only [List.map_cons, List.find?_cons]
    by_cases hx : (x.1 == k) = true
    · have hx' : x.1 = k := by simpa using hx
      have h1 : ((k, v).1 == k') = false := by
        simp only [beq_eq_false_iff_ne, ne_eq]
        exact fun hc => h hc.symm
      have h2 : (x.1 == k') = false := by
        simp only [hx', beq_eq_false_iff_ne, ne_eq]
        exact fun hc => h hc.symm
      simp only [hx, if_true, h1, h2, ih]
    · simp only [hx, Bool.false_eq_true, if_false]
      cases hxk' : (x.1 == k') <;> simp only [hxk', ih]

theorem dictGet_dictSet_ne {V : Type} (d : List (String × V)) (k k' : String)
    (v : V) (h : k' ≠ k) : dictGet (dictSet d k v) k' = dictGet d k' := by
  unfold dictGet dictSet
  by_cases hfind : (d.find? (fun e => e.1 == k)).isSome
  · simp only [hfind, if_true, find?_map_keyOverwrite d k k' v h]
  · simp only [hfind, Bool.false_eq_true, if_false]
    rw [List.find?_append]
    cases hfk' : d.find? (fun e => e.1 == k') with
    | some e => simp
    | none =>
      have h1 : ((k, v).1 == k') = false := by
        simp only [beq_eq_false_iff_ne, ne_eq]
        exact fun hc => h hc.symm
      simp [List.find?_cons, h1]

theorem dictGet_dictDel_same {V : Type} (d : List (String × V)) (k : String) :
    dictGet (dictDel d k) k = none := by
  unfold dictGet dictDel
  rw [List.find?_filter]
  induction d with
  | nil => simp
  | cons x xs ih =>
    by_cases hx : x.1 == k
    · simp only [List.find?, hx, Bool.not_true]
      exact ih
    · simp only [List.find?, hx, Bool.not_false]
      exact ih

theorem dictGet_dictDel_ne {V : Type} (d : List (String × V)) (k k' : String)
    (h : k' ≠ k) : dictGet (dictDel d k) k' = dictGet d k' := by
  unfold dictGet dictDel
  congr 1
  induction d with
  | nil => simp
  | cons x xs ih =>
    by_cases hx : (x.1 == k) = true
    · have hx' : x.1 = k := by simpa using hx
      have h2 : (x.1 == k') = false := by
        simp only [hx', beq_eq_false_iff_ne, ne_eq]
        exact fun hc => h hc.symm
      simp only [List.filter_cons, hx, Bool.not_true, Bool.false_eq_true,
        if_false, List.find?_cons, h2, ih]
    · simp only [List.filter_cons, hx, Bool.not_false, if_true,
        List.find?_cons]
      cases hxk' : (x.1 == k') <;> simp [hxk', ih]

theorem dictDel_of_get_none {V : Type} (d : List (String × V)) (k : String)
    (h : dictGet d k = none) : dictDel d k = d := by
  unfold dictGet at h
  unfold dictDel
  have hfind : d.find? (fun e => e.1 == k) = none := by
    cases hf : d.find? (fun e => e.1 == k) with
    | none => rfl
    | some e => simp [hf] at h
  rw [List.find?_eq_none] at hfind
  rw [List.filter_eq_self]
  intro e he
  simpa using hfind e he

theorem dictDel_dictSet {V : Type} (d : List (String × V)) (k : String)
    (v : V) : dictDel (dictSet d k v) k = dictDel d k := by
  unfold dictSet
  by_cases hfind : (d.find? (fun e => e.1 == k)).isSome
  · simp only [hfind, if_true]
    unfold dictDel
    clear hfind
    induction d with
    | nil => simp
    | cons x xs ih =>
      simp only [List.map_cons, List.filter_cons]
      by_cases hx : (x.1 == k) = true
      · simp only [hx, if_true, beq_self_eq_true, Bool.not_true,
          Bool.false_eq_true, if_false]
        exact ih
      · simp only [hx, Bool.false_eq_true, if_false, Bool.not_false, if_true]
        rw [ih]
  · simp only [hfind, Bool.false_eq_true, if_false]
    unfold dictDel
    rw [List.filter_append]
    simp

theorem release_lock_dictGet_same (locks : LockTable) (key : String) :
    dictGet (release_lock locks key) key = none := by
  unfold release_lock
  by_cases h : (dictGet locks key).isSome
  · simp only [h, if_true]
    exact dictGet_dictDel_same locks key
  · simp only [h, Bool.false_eq_true, if_false]
    cases hg : dictGet locks key with
    | none => rfl
    | some e => simp [hg] at h

/-! ### Slot Store and Hold Tracker data (src/models/availability.py) -/

/-- TimeSlot (models/availability.py): an appointment slot. -/
structure TimeSlot where
  id : String
  provider_id : String
  provider_name : String
  location_id : String
  location_name : String
  date : Nat
  start_time : Time
  end_time : Time
  duration_minutes : Nat
  appointment_types : List String
  available : Bool
  held_by : Option String
  held_until : Option Nat
deriving DecidableEq

/-- SlotHold (models/availability.py): a temporary hold on a slot.
The status field defaults to "active" and takes values among
"active", "released", "expired", "converted". -/
structure SlotHold where
  slot_id : String
  patient_id : String
  held_at : Nat
  expires_at : Nat
  status : String
deriving DecidableEq

/-- AvailabilitySearch (models/availability.py). start_date and
end_date are required fields; the optional string filters default to
None; limit defaults to 20. -/
structure AvailabilitySearch where
  specialty : Option String
  location_id : Option String
  provider_id : Option String
  start_date : Nat
  end_date : Nat
  time_of_day : Option String
  appointment_type : Option String
  limit : Nat
deriving DecidableEq

/-- AvailabilityService state: the slots dict (values in insertion
order, keyed by slot.id) and the holds dict (values in insertion
order; hold keys are fresh uuids that nothing reads back, so only the
value list is kept). The unused CacheService field is omitted. -/
structure AvailabilityService where
  slots : List TimeSlot
  holds : List SlotHold
deriving DecidableEq

/-- The natural-key predicate used by is_slot_available,
mark_slot_booked and mark_slot_available: provider, date, start time. -/
def slotMatchesKey (provider_id : String) (d : Nat) (t : Time)
    (slot : TimeSlot) : Bool :=
  slot.provider_id == provider_id && slot.date == d
    && decide (slot.start_time = t)

/-- AvailabilityService.is_slot_available: scan slots in order, return
the availability flag of the first slot matching the natural key, or
False when none matches. -/
def is_slot_available (slots : List TimeSlot) (provider_id : String)
    (d : Nat) (t : Time) : Bool :=
  match slots.find? (slotMatchesKey provider_id d t) with
  | some slot => slot.available
  | none => false

/-- AvailabilityService.mark_slot_booked: set available := False on the
first slot matching the natural key (for-loop with break). -/
def mark_slot_booked (slots : List TimeSlot) (provider_id : String)
    (d : Nat) (t : Time) : List TimeSlot :=
  updateFirst (slotMatchesKey provider_id d t)
    (fun slot => { slot with available := false }) slots

/-- AvailabilityService.mark_slot_available: set available := True on
the first slot matching the natural key (for-loop with break). -/
def mark_slot_available (slots : List TimeSlot) (provider_id : String)
    (d : Nat) (t : Time) : List TimeSlot :=
  updateFirst (slotMatchesKey provider_id d t)
    (fun slot => { slot with available := true }) slots

/-- Typed counterparts of the ValueError messages raised by the
services, one constructor per distinct message. -/
inductive ServiceError where
  /-- "Slot is currently being booked by another user" -/
  | slot_contended
  /-- "Selected slot is no longer available" -/
  | slot_unavailable
  /-- "Slot not available" (hold_slot) -/
  | slot_not_available
  /-- "Appointment not found" -/
  | appointment_not_found
  /-- "Cannot update cancelled appointment" -/
  | cannot_update_cancelled
  /-- "New slot is not available" -/
  | new_slot_unavailable
  /-- "Appointment already cancelled" -/
  | already_cancelled
  /-- "Waitlist entry not found" -/
  | waitlist_entry_not_found
deriving DecidableEq

/-- AvailabilityService.hold_slot: look the slot up by id; fail if it
is absent or not available; otherwise record a SlotHold expiring at
now + duration_minutes (in seconds) and stamp held_by / held_until on
the slot. Note the slot's available flag is not modified. -/
def hold_slot (svc : AvailabilityService) (slot_id patient_id : String)
    (duration_minutes : Nat) (now : Nat) :
    Except ServiceError SlotHold × AvailabilityService :=
  match svc.slots.find? (fun s => s.id == slot_id) with
  | none => (Except.error ServiceError.slot_not_available, svc)
  | some slot =>
    if !slot.available then
      (Except.error ServiceError.slot_not_available, svc)
    else
      let hold : SlotHold :=
        { slot_id := slot_id, patient_id := patient_id, held_at := now,
          expires_at := now + duration_minutes * 60, status := "active" }
      let slots1 := updateFirst (fun s => s.id == slot_id)
        (fun s => { s with held_by := some patient_id,
                           held_until := some hold.expires_at }) svc.slots
      (Except.ok hold, { slots := slots1, holds := svc.holds ++ [hold] })

/-- AvailabilityService.release_hold: clear held_by / held_until on the
slot only when the stored holder matches; otherwise a silent no-op.
The SlotHold records in holds are not touched. -/
def release_hold (svc : AvailabilityService) (slot_id patient_id : String) :
    AvailabilityService :=
  match svc.slots.find? (fun s => s.id == slot_id) with
  | none => svc
  | some slot =>
    if decide (slot.held_by = some patient_id) then
      { svc with slots := (updateFirst (fun s => s.id == slot_id)
          (fun s => { s with held_by := none, held_until := none })
          svc.slots) }
    else svc

/-- The filter applied to each slot by the search_slots loop: the slot
is appended to the results iff none of the seven continue conditions
fires, so the filter is the conjunction of their negations, in source
order. Optional string filters are Python-truthy tested (None and ""
are falsy, so they skip the filter), matching the if guards
`if search.provider_id and ...` in the source. -/
def search_keep (search : AvailabilitySearch) (slot : TimeSlot) : Bool :=
  slot.available
  && !(decide (slot.date < search.start_date))
  && !(decide (search.end_date < slot.date))
  && !(match search.provider_id with
       | some p => !(p == "") && !(slot.provider_id == p)
       | none => false)
  && !(match search.location_id with
       | some l => !(l == "") && !(slot.location_id == l)
       | none => false)
  && !(match search.appointment_type with
       | some a => !(a == "") && !(slot.appointment_types.contains a)
       | none => false)
  && !(match search.time_of_day with
       | some tod =>
         !(tod == "") &&
           ((tod == "morning" && decide (12 ≤ slot.start_time.hour))
            || (tod == "afternoon"
                 && (decide (slot.start_time.hour < 12)
                     || decide (17 ≤ slot.start_time.hour)))
            || (tod == "evening" && decide (slot.start_time.hour < 17)))
       | none => false)

/-- The Python sort key (slot.date, slot.start_time) compared
lexicographically, as a relation. -/
def slotOrd (a b : TimeSlot) : Prop :=
  a.date < b.date ∨ (a.date = b.date ∧ (a.start_time.hour < b.start_time.hour
    ∨ (a.start_time.hour = b.start_time.hour
        ∧ a.start_time.minute ≤ b.start_time.minute)))

instance : DecidableRel slotOrd := fun a b => by
  unfold slotOrd
  exact inferInstance

instance : IsTotal TimeSlot slotOrd :=
  ⟨fun a b => by unfold slotOrd; omega⟩

instance : IsTrans TimeSlot slotOrd :=
  ⟨fun a b c hab hbc => by unfold slotOrd at hab hbc ⊢; omega⟩

/-- AvailabilityService.search_slots: keep the slots passing every
filter (in iteration order), sort them stably by (date, start_time)
ascending (Python's stable list.sort modelled by insertionSort), and
truncate to search.limit. -/
def search_slots (slots : List TimeSlot) (search : AvailabilitySearch) :
    List TimeSlot :=
  ((slots.filter (search_keep search)).insertionSort slotOrd).take
    search.limit

/-! ### Booking Orchestrator (src/services/appointment_service.py,
src/models/appointment.py) -/

/-- AppointmentStatus (models/appointment.py). -/
inductive AppointmentStatus where
  | scheduled
  | confirmed
  | checked_in
  | in_progress
  | completed
  | cancelled
  | no_show
deriving DecidableEq

/-- Appointment (models/appointment.py). The appointment_type enum is
kept as its string value. -/
structure Appointment where
  id : String
  patient_id : String
  provider_id : String
  location_id : String
  scheduled_time : DateTime
  end_time : DateTime
  appointment_type : String
  status : AppointmentStatus
  reason : Option String
  notes : Option String
  telehealth : Bool
  telehealth_link : Option String
  checked_in_at : Option Nat
  completed_at : Option Nat
  cancelled_at : Option Nat
  cancellation_reason : Option String
  created_at : Nat
  updated_at : Nat
deriving DecidableEq

/-- AppointmentCreate (models/appointment.py). -/
structure AppointmentCreate where
  patient_id : String
  provider_id : String
  location_id : String
  scheduled_date : Nat
  scheduled_time : Time
  appointment_type : String
  duration_minutes : Nat
  reason : Option String
  notes : Option String
  telehealth : Bool
deriving DecidableEq

/-- AppointmentUpdate (models/appointment.py): all fields optional. -/
structure AppointmentUpdate where
  scheduled_date : Option Nat
  scheduled_time : Option Time
  reason : Option String
  notes : Option String
deriving DecidableEq

/-- AppointmentService state: its own AvailabilityService and
CacheService instances plus the appointments dict; uuid-based fresh
appointment ids are modelled by the next_id counter. -/
structure AppointmentService where
  availability_service : AvailabilityService
  locks : LockTable
  appointments : List (String × Appointment)
  next_id : Nat
deriving DecidableEq

/-- Rendering of a Time for the f-string lock key (only key equality
matters to the code). -/
def Time.render (t : Time) : String :=
  toString t.hour ++ ":" ++ toString t.minute

/-- The slot_id f-string "provider:date:time" of create_appointment. -/
def slot_key_string (provider_id : String) (d : Nat) (t : Time) : String :=
  provider_id ++ ":" ++ toString d ++ ":" ++ t.render

/-- The lock key f-string "lock:slot:provider:date:time". -/
def lock_key_for (provider_id : String) (d : Nat) (t : Time) : String :=
  "lock:slot:" ++ slot_key_string provider_id d t

/-- The appointment id f-string "apt-..."; the uuid hex is modelled by
the service's fresh counter value. -/
def mk_appointment_id (n : Nat) : String :=
  "apt-" ++ toString n

/-- The Appointment record literal built by create_appointment. -/
def new_appointment (request : AppointmentCreate) (appointment_id : String)
    (now : Nat) : Appointment :=
  let scheduled_datetime : DateTime :=
    ⟨request.scheduled_date, request.scheduled_time⟩
  { id := appointment_id
    patient_id := request.patient_id
    provider_id := request.provider_id
    location_id := request.location_id
    scheduled_time := scheduled_datetime
    end_time := scheduled_datetime.addMinutes request.duration_minutes
    appointment_type := request.appointment_type
    status := AppointmentStatus.scheduled
    reason := request.reason
    notes := request.notes
    telehealth := request.telehealth
    telehealth_link := none
    checked_in_at := none
    completed_at := none
    cancelled_at := none
    cancellation_reason := none
    created_at := now
    updated_at := now }

/-- AppointmentService.create_appointment: acquire the slot lock (fail
with the contended error if busy), re-check availability under the
lock (fail with the unavailable error, releasing the lock), else store
a new Scheduled appointment, mark the slot booked, and release the
lock in the finally block. -/
def create_appointment (svc : AppointmentService)
    (request : AppointmentCreate) (now : Nat) :
    Except ServiceError Appointment × AppointmentService :=
  let lock_key := lock_key_for request.provider_id request.scheduled_date
    request.scheduled_time
  let acq := acquire_lock svc.locks lock_key 30 now
  if !acq.1 then
    (Except.error ServiceError.slot_contended, { svc with locks := acq.2 })
  else if !(is_slot_available svc.availability_service.slots
      request.provider_id request.scheduled_date request.scheduled_time) then
    (Except.error ServiceError.slot_unavailable,
      { svc with locks := release_lock acq.2 lock_key })
  else
    let appointment_id := mk_appointment_id svc.next_id
    let appointment := new_appointment request appointment_id now
    (Except.ok appointment,
      { availability_service :=
          { svc.availability_service with
              slots := (mark_slot_booked svc.availability_service.slots
                request.provider_id request.scheduled_date
                request.scheduled_time) }
        locks := release_lock acq.2 lock_key
        appointments := dictSet svc.appointments appointment_id appointment
        next_id := svc.next_id + 1 })

/-- The reason / notes / updated_at tail of update_appointment (lines
shared by the reschedule and plain-update paths); reason and notes are
Python-truthy tested, so None and "" leave the field alone. -/
def apply_update_tail (appointment : Appointment)
    (update : AppointmentUpdate) (now : Nat) : Appointment :=
  let a1 := if strTruthy update.reason then
    { appointment with reason := update.reason } else appointment
  let a2 := if strTruthy update.notes then
    { a1 with notes := update.notes } else a1
  { a2 with updated_at := now }

/-- AppointmentService.update_appointment: NotFound when the id is
unknown, invalid when already cancelled; when a new date or time is
supplied, verify the destination natural key is available (fail
leaving everything untouched), then release the old slot, rewrite
scheduled_time, book the new slot; finally apply reason/notes and
stamp updated_at. -/
def update_appointment (svc : AppointmentService) (appointment_id : String)
    (update : AppointmentUpdate) (now : Nat) :
    Except ServiceError Appointment × AppointmentService :=
  match dictGet svc.appointments appointment_id with
  | none => (Except.error ServiceError.appointment_not_found, svc)
  | some appointment =>
    if appointment.status = AppointmentStatus.cancelled then
      (Except.error ServiceError.cannot_update_cancelled, svc)
    else if update.scheduled_date.isSome || update.scheduled_time.isSome then
      let new_date := update.scheduled_date.getD appointment.scheduled_time.date
      let new_time := update.scheduled_time.getD appointment.scheduled_time.time
      if !(is_slot_available svc.availability_service.slots
          appointment.provider_id new_date new_time) then
        (Except.error ServiceError.new_slot_unavailable, svc)
      else
        let slots1 := mark_slot_available svc.availability_service.slots
          appointment.provider_id appointment.scheduled_time.date
          appointment.scheduled_time.time
        let appointment1 :=
          { appointment with scheduled_time := ⟨new_date, new_time⟩ }
        let slots2 := mark_slot_booked slots1 appointment.provider_id
          new_date new_time
        let appointment2 := apply_update_tail appointment1 update now
        (Except.ok appointment2,
          { svc with
              availability_service :=
                { svc.availability_service with slots := slots2 }
              appointments :=
                dictSet svc.appointments appointment_id appointment2 })
    else
      let appointment2 := apply_update_tail appointment update now
      (Except.ok appointment2,
        { svc with appointments :=
            dictSet svc.appointments appointment_id appointment2 })

/-- AppointmentService.cancel_appointment: NotFound when the id is
unknown, invalid when already cancelled; else stamp the cancellation
fields and mark the old natural key available again. -/
def cancel_appointment (svc : AppointmentService) (appointment_id : String)
    (reason : Option String) (now : Nat) :
    Except ServiceError Unit × AppointmentService :=
  match dictGet svc.appointments appointment_id with
  | none => (Except.error ServiceError.appointment_not_found, svc)
  | some appointment =>
    if appointment.status = AppointmentStatus.cancelled then
      (Except.error ServiceError.already_cancelled, svc)
    else
      let appointment1 :=
        { appointment with
            status := AppointmentStatus.cancelled
            cancellation_reason := reason
            cancelled_at := some now
            updated_at := now }
      (Except.ok (),
        { svc with
            appointments :=
              dictSet svc.appointments appointment_id appointment1
            availability_service :=
              { svc.availability_service with
                  slots := (mark_slot_available
                    svc.availability_service.slots appointment.provider_id
                    appointment.scheduled_time.date
                    appointment.scheduled_time.time) } })

/-- AppointmentService.check_in: NotFound when the id is unknown; else
set status checked_in and stamp checked_in_at / updated_at. There is
no guard on the current status. -/
def check_in (svc : AppointmentService) (appointment_id : String)
    (now : Nat) : Except ServiceError Unit × AppointmentService :=
  match dictGet svc.appointments appointment_id with
  | none => (Except.error ServiceError.appointment_not_found, svc)
  | some appointment =>
    let appointment1 :=
      { appointment with
          status := AppointmentStatus.checked_in
          checked_in_at := some now
          updated_at := now }
    (Except.ok (),
      { svc with appointments :=
          dictSet svc.appointments appointment_id appointment1 })

/-- AppointmentService.complete: NotFound when the id is unknown; else
set status completed, stamp completed_at, overwrite notes when the
argument is truthy, stamp updated_at. No guard on the current status. -/
def complete (svc : AppointmentService) (appointment_id : String)
    (notes : Option String) (now : Nat) :
    Except ServiceError Unit × AppointmentService :=
  match dictGet svc.appointments appointment_id with
  | none => (Except.error ServiceError.appointment_not_found, svc)
  | some appointment =>
    let a1 := { appointment with
      status := AppointmentStatus.completed
      completed_at := some now }
    let a2 := if strTruthy notes then { a1 with notes := notes } else a1
    let appointment1 := { a2 with updated_at := now }
    (Except.ok (),
      { svc with appointments :=
          dictSet svc.appointments appointment_id appointment1 })

/-! ### Waitlist Queue (src/services/waitlist_service.py,
src/models/waitlist.py) -/

/-- WaitlistRequest (models/waitlist.py). -/
structure WaitlistRequest where
  patient_id : String
  provider_id : String
  location_id : Option String
  preferred_dates : List Nat
  preferred_time_of_day : Option String
  appointment_type : String
  urgency : String
  notes : Option String
deriving DecidableEq

/-- WaitlistEntry (models/waitlist.py). status ranges over "waiting",
"notified", "booked", "expired", "removed". -/
structure WaitlistEntry where
  id : String
  patient_id : String
  provider_id : String
  location_id : Option String
  preferred_dates : List Nat
  preferred_time_of_day : Option String
  appointment_type : String
  urgency : String
  status : String
  position : Nat
  created_at : Nat
  notified_at : Option Nat
  booked_appointment_id : Option String
deriving DecidableEq

/-- WaitlistService state: the entries dict plus the fresh-uuid
counter for entry ids. -/
structure WaitlistService where
  entries : List (String × WaitlistEntry)
  next_id : Nat
deriving DecidableEq

/-- The entry id f-string "wl-..."; uuid hex modelled by the counter. -/
def mk_waitlist_id (n : Nat) : String :=
  "wl-" ++ toString n

/-- WaitlistService.add_to_waitlist: position is 1 + the number of
existing entries for the same provider whose status is "waiting"; the
new entry is stored with status "waiting". -/
def add_to_waitlist (svc : WaitlistService) (request : WaitlistRequest)
    (now : Nat) : WaitlistEntry × WaitlistService :=
  let entry_id := mk_waitlist_id svc.next_id
  let existing := svc.entries.filter
    (fun e => e.2.provider_id == request.provider_id
      && e.2.status == "waiting")
  let position := existing.length + 1
  let entry : WaitlistEntry :=
    { id := entry_id
      patient_id := request.patient_id
      provider_id := request.provider_id
      location_id := request.location_id
      preferred_dates := request.preferred_dates
      preferred_time_of_day := request.preferred_time_of_day
      appointment_type := request.appointment_type
      urgency := request.urgency
      status := "waiting"
      position := position
      created_at := now
      notified_at := none
      booked_appointment_id := none }
  (entry, { entries := dictSet svc.entries entry_id entry,
            next_id := svc.next_id + 1 })

/-- WaitlistService.remove_from_waitlist: NotFound when the id is
unknown; else set the entry's status to "removed". -/
def remove_from_waitlist (svc : WaitlistService) (entry_id : String) :
    Except ServiceError Unit × WaitlistService :=
  match dictGet svc.entries entry_id with
  | none => (Except.error ServiceError.waitlist_entry_not_found, svc)
  | some entry =>
    (Except.ok (),
      { svc with entries := (dictSet svc.entries entry_id
          { entry with status := "removed" }) })

/-- WaitlistService.notify_patient: NotFound when the id is unknown;
else set status "notified" and stamp notified_at. -/
def notify_patient (svc : WaitlistService) (entry_id : String) (now : Nat) :
    Except ServiceError Unit × WaitlistService :=
  match dictGet svc.entries entry_id with
  | none => (Except.error ServiceError.waitlist_entry_not_found, svc)
  | some entry =>
    (Except.ok (),
      { svc with entries := (dictSet svc.entries entry_id
          { entry with status := "notified", notified_at := some now }) })

/-! ### Lemmas about updateFirst and the slot-marking operations -/

theorem find?_updateFirst {α : Type} (p : α → Bool) (f : α → α)
    (hpres : ∀ x, p (f x) = p x) (L : List α) :
    (updateFirst p f L).find? p = (L.find? p).map f := by
  induction L with
  | nil => rfl
  | cons x xs ih =>
    unfold updateFirst
    by_cases hx : p x = true
    · simp only [hx, if_true, List.find?_cons, hpres x]
      rfl
    · simp only [hx, Bool.false_eq_true, if_false, List.find?_cons]
      simp only [Bool.not_eq_true] at hx
      simp only [hx, ih]

theorem is_slot_available_mark_slot_booked (L : List TimeSlot)
    (provider_id : String) (d : Nat) (t : Time) :
    is_slot_available (mark_slot_booked L provider_id d t) provider_id d t
      = false := by
  unfold is_slot_available mark_slot_booked
  rw [find?_updateFirst (slotMatchesKey provider_id d t)
    (fun slot => { slot with available := false }) (fun x => rfl) L]
  cases L.find? (slotMatchesKey provider_id d t) <;> rfl

theorem is_slot_available_mark_slot_available (L : List TimeSlot)
    (provider_id : String) (d : Nat) (t : Time)
    (h : (L.find? (slotMatchesKey provider_id d t)).isSome) :
    is_slot_available (mark_slot_available L provider_id d t) provider_id d t
      = true := by
  unfold is_slot_available mark_slot_available
  rw [find?_updateFirst (slotMatchesKey provider_id d t)
    (fun slot => { slot with available := true }) (fun x => rfl) L]
  cases hf : L.find? (slotMatchesKey provider_id d t) with
  | none => rw [hf] at h; simp at h
  | some s => rfl

theorem find?_mark_slot_booked_isSome (L : List TimeSlot)
    (provider_id : String) (d : Nat) (t : Time)
    (h : (L.find? (slotMatchesKey provider_id d t)).isSome) :
    ((mark_slot_booked L provider_id d t).find?
      (slotMatchesKey provider_id d t)).isSome := by
  unfold mark_slot_booked
  rw [find?_updateFirst (slotMatchesKey provider_id d t)
    (fun slot => { slot with available := false }) (fun x => rfl) L]
  cases hf : L.find? (slotMatchesKey provider_id d t) with
  | none => rw [hf] at h; simp at h
  | some s => rfl

theorem is_slot_available_isSome (L : List TimeSlot) (provider_id : String)
    (d : Nat) (t : Time) (h : is_slot_available L provider_id d t = true) :
    (L.find? (slotMatchesKey provider_id d t)).isSome := by
  unfold is_slot_available at h
  cases hf : L.find? (slotMatchesKey provider_id d t) with
  | none => rw [hf] at h; exact absurd h (by simp)
  | some s => rfl

/-! ### Lemmas about the Lock Manager -/

theorem acquire_lock_fst_iff (locks : LockTable) (key : String)
    (ttl now : Nat) :
    (acquire_lock locks key ttl now).1 = true ↔
      (dictGet locks key = none
        ∨ ∃ r, dictGet locks key = some r ∧ r.expires_at ≤ now) := by
  unfold acquire_lock
  cases hg : dictGet locks key with
  | none => simp
  | some lock =>
    dsimp only
    by_cases hexp : now < lock.expires_at
    · rw [if_pos hexp]
      constructor
      · intro hc; exact absurd hc (by simp)
      · rintro (hc | ⟨r, hr, hle⟩)
        · exact absurd hc (by simp)
        · simp only [Option.some.injEq] at hr
          subst hr
          omega
    · rw [if_neg hexp]
      constructor
      · intro _
        exact Or.inr ⟨lock, rfl, by omega⟩
      · intro _; rfl

theorem acquire_lock_snd_of_false (locks : LockTable) (key : String)
    (ttl now : Nat) (h : (acquire_lock locks key ttl now).1 = false) :
    (acquire_lock locks key ttl now).2 = locks := by
  unfold acquire_lock at h ⊢
  cases hg : dictGet locks key with
  | none =>
    rw [hg] at h
    exact absurd h (by simp)
  | some lock =>
    rw [hg] at h
    dsimp only at h ⊢
    by_cases hexp : now < lock.expires_at
    · rw [if_pos hexp]
    · rw [if_neg hexp] at h
      exact absurd h (by simp)

theorem acquire_lock_get_of_true (locks : LockTable) (key : String)
    (ttl now : Nat) (h : (acquire_lock locks key ttl now).1 = true) :
    dictGet (acquire_lock locks key ttl now).2 key
      = some ⟨now, now + ttl⟩ := by
  unfold acquire_lock at h ⊢
  cases hg : dictGet locks key with
  | none => exact dictGet_dictSet_same locks key _
  | some lock =>
    rw [hg] at h
    dsimp only at h ⊢
    by_cases hexp : now < lock.expires_at
    · rw [if_pos hexp] at h; exact absurd h (by simp)
    · rw [if_neg hexp]
      exact dictGet_dictSet_same _ key _

theorem release_acquire_lock (locks : LockTable) (key : String)
    (ttl now : Nat) (h : (acquire_lock locks key ttl now).1 = true) :
    release_lock (acquire_lock locks key ttl now).2 key
      = dictDel locks key := by
  have hget := acquire_lock_get_of_true locks key ttl now h
  unfold release_lock
  rw [hget]
  simp only [Option.isSome_some, if_true]
  unfold acquire_lock at h ⊢
  cases hg : dictGet locks key with
  | none =>
    exact dictDel_dictSet locks key _
  | some lock =>
    rw [hg] at h
    dsimp only at h ⊢
    by_cases hexp : now < lock.expires_at
    · rw [if_pos hexp] at h; exact absurd h (by simp)
    · rw [if_neg hexp]
      rw [dictDel_dictSet]
      exact dictDel_of_get_none _ _ (dictGet_dictDel_same locks key)

/-! ### Characterisations of create_appointment outcomes -/

theorem create_appointment_contended (svc : AppointmentService)
    (request : AppointmentCreate) (now : Nat)
    (h : (acquire_lock svc.locks (lock_key_for request.provider_id
      request.scheduled_date request.scheduled_time) 30 now).1 = false) :
    create_appointment svc request now
      = (Except.error ServiceError.slot_contended, svc) := by
  unfold create_appointment
  simp only [h, Bool.not_false, if_true]
  rw [acquire_lock_snd_of_false _ _ _ _ h]

theorem create_appointment_unavailable (svc : AppointmentService)
    (request : AppointmentCreate) (now : Nat)
    (hl : (acquire_lock svc.locks (lock_key_for request.provider_id
      request.scheduled_date request.scheduled_time) 30 now).1 = true)
    (ha : is_slot_available svc.availability_service.slots
      request.provider_id request.scheduled_date request.scheduled_time
        = false) :
    create_appointment svc request now
      = (Except.error ServiceError.slot_unavailable,
          { svc with locks := (dictDel svc.locks (lock_key_for
              request.provider_id request.scheduled_date
              request.scheduled_time)) }) := by
  unfold create_appointment
  simp only [hl, Bool.not_true, Bool.false_eq_true, if_false, ha,
    Bool.not_false, if_true]
  rw [release_acquire_lock _ _ _ _ hl]

theorem cancel_appointment_ok (svc : AppointmentService)
    (appointment_id : String) (reason : Option String) (now : Nat)
    (apt : Appointment)
    (hg : dictGet svc.appointments appointment_id = some apt)
    (hs : ¬apt.status = AppointmentStatus.cancelled) :
    cancel_appointment svc appointment_id reason now
      = (Except.ok (),
          { svc with
              appointments := (dictSet svc.appointments appointment_id
                { apt with
                    status := AppointmentStatus.cancelled
                    cancellation_reason := reason
                    cancelled_at := some now
                    updated_at := now })
              availability_service :=
                { svc.availability_service with
                    slots := (mark_slot_available
                      svc.availability_service.slots apt.provider_id
                      apt.scheduled_time.date apt.scheduled_time.time) } }) := by
  unfold cancel_appointment
  rw [hg]
  dsimp only
  rw [if_neg hs]

theorem create_appointment_ok (svc : AppointmentService)
    (request : AppointmentCreate) (now : Nat)
    (hl : (acquire_lock svc.locks (lock_key_for request.provider_id
      request.scheduled_date request.scheduled_time) 30 now).1 = true)
    (ha : is_slot_available svc.availability_service.slots
      request.provider_id request.scheduled_date request.scheduled_time
        = true) :
    create_appointment svc request now
      = (Except.ok (new_appointment request
            (mk_appointment_id svc.next_id) now),
          { availability_service :=
              { svc.availability_service with
                  slots := (mark_slot_booked svc.availability_service.slots
                    request.provider_id request.scheduled_date
                    request.scheduled_time) }
            locks := (dictDel svc.locks (lock_key_for request.provider_id
              request.scheduled_date request.scheduled_time))
            appointments := (dictSet svc.appointments
              (mk_appointment_id svc.next_id)
              (new_appointment request (mk_appointment_id svc.next_id) now))
            next_id := svc.next_id + 1 }) := by
  unfold create_appointment
  simp only [hl, Bool.not_true, Bool.false_eq_true, if_false, ha,
    Bool.not_false, if_true]
  rw [release_acquire_lock _ _ _ _ hl]

/-! ### Claim theorems -/

/-- C2: Lock Manager acquire semantics. acquire(key, ttl) returns true
and installs a record with expires_at = now + ttl iff no record exists
for key or the existing record's expires_at has already passed
(expires_at ≤ now, the expired record being reclaimed); otherwise it
returns false and leaves the lock table unchanged. Two acquires in
immediate succession (same now, positive ttl) have the second return
false, and when the first acquire succeeded, an acquire after the ttl
has elapsed returns true. -/
theorem c2_lock_manager_acquire_semantics (locks : LockTable)
    (key : String) (ttl now : Nat) :
    ((acquire_lock locks key ttl now).1 = true ↔
        (dictGet locks key = none
          ∨ ∃ r, dictGet locks key = some r ∧ r.expires_at ≤ now))
    ∧ ((acquire_lock locks key ttl now).1 = true →
        dictGet (acquire_lock locks key ttl now).2 key
          = some ⟨now, now + ttl⟩)
    ∧ ((acquire_lock locks key ttl now).1 = false →
        (acquire_lock locks key ttl now).2 = locks)
    ∧ (0 < ttl →
        (acquire_lock (acquire_lock locks key ttl now).2 key ttl now).1
          = false)
    ∧ ((acquire_lock locks key ttl now).1 = true →
        ∀ now2, now + ttl ≤ now2 →
          (acquire_lock (acquire_lock locks key ttl now).2 key ttl now2).1
            = true) := by
  refine ⟨acquire_lock_fst_iff locks key ttl now,
    acquire_lock_get_of_true locks key ttl now,
    acquire_lock_snd_of_false locks key ttl now, ?_, ?_⟩
  · intro httl
    by_cases hb : (acquire_lock locks key ttl now).1 = true
    · have hget := acquire_lock_get_of_true locks key ttl now hb
      cases hsecond : (acquire_lock (acquire_lock locks key ttl now).2
          key ttl now).1 with
      | false => rfl
      | true =>
        have := (acquire_lock_fst_iff
          (acquire_lock locks key ttl now).2 key ttl now).mp hsecond
        rcases this with hnone | ⟨r, hr, hle⟩
        · rw [hget] at hnone; exact absurd hnone (by simp)
        · rw [hget] at hr
          simp only [Option.some.injEq] at hr
          subst hr
          simp only at hle
          omega
    · have hb' : (acquire_lock locks key ttl now).1 = false := by
        cases hv : (acquire_lock locks key ttl now).1
        · rfl
        · exact absurd hv hb
      rw [acquire_lock_snd_of_false locks key ttl now hb']
      exact hb'
  · intro hb now2 hle
    have hget := acquire_lock_get_of_true locks key ttl now hb
    exact (acquire_lock_fst_iff _ key ttl now2).mpr
      (Or.inr ⟨⟨now, now + ttl⟩, hget, hle⟩)

/-- Witness for C2 at locks = [], key = "k", ttl = 30, now = 0: the
first acquire succeeds and installs expires_at = 30, an immediate
second acquire fails, and an acquire at time 30 succeeds again. -/
theorem c2_lock_manager_acquire_semantics_witness :
    (acquire_lock [] "k" 30 0).1 = true
    ∧ dictGet (acquire_lock [] "k" 30 0).2 "k" = some ⟨0, 30⟩
    ∧ (acquire_lock (acquire_lock [] "k" 30 0).2 "k" 30 0).1 = false
    ∧ (acquire_lock (acquire_lock [] "k" 30 0).2 "k" 30 30).1 = true := by
  have h := c2_lock_manager_acquire_semantics [] "k" 30 0
  have hfirst : (acquire_lock ([] : LockTable) "k" 30 0).1 = true :=
    h.1.mpr (Or.inl rfl)
  exact ⟨hfirst, h.2.1 hfirst, h.2.2.2.1 (by decide),
    h.2.2.2.2 hfirst 30 (by decide)⟩

/-- C3: create_appointment releases its lock on every exit path that
acquired it (any outcome other than the contended error leaves the
lock table without the slot's lock key), and a slot-unavailable
failure changes neither the appointments dict nor the availability
state. -/
theorem c3_create_appointment_lock_release_and_atomic_failure
    (svc : AppointmentService) (request : AppointmentCreate) (now : Nat) :
    ((create_appointment svc request now).1
        ≠ Except.error ServiceError.slot_contended →
      (create_appointment svc request now).2.locks
          = dictDel svc.locks (lock_key_for request.provider_id
              request.scheduled_date request.scheduled_time)
        ∧ dictGet (create_appointment svc request now).2.locks
            (lock_key_for request.provider_id request.scheduled_date
              request.scheduled_time) = none)
    ∧ ((create_appointment svc request now).1
        = Except.error ServiceError.slot_unavailable →
      (create_appointment svc request now).2.appointments
          = svc.appointments
        ∧ (create_appointment svc request now).2.availability_service
            = svc.availability_service) := by
  by_cases hl : (acquire_lock svc.locks (lock_key_for request.provider_id
      request.scheduled_date request.scheduled_time) 30 now).1 = true
  · by_cases ha : is_slot_available svc.availability_service.slots
        request.provider_id request.scheduled_date request.scheduled_time
          = true
    · rw [create_appointment_ok svc request now hl ha]
      constructor
      · intro _
        exact ⟨rfl, dictGet_dictDel_same _ _⟩
      · intro hcontra
        exact absurd hcontra (by simp)
    · have ha' : is_slot_available svc.availability_service.slots
          request.provider_id request.scheduled_date request.scheduled_time
            = false := by
        cases hv : is_slot_available svc.availability_service.slots
            request.provider_id request.scheduled_date
            request.scheduled_time
        · rfl
        · exact absurd hv ha
      rw [create_appointment_unavailable svc request now hl ha']
      constructor
      · intro _
        exact ⟨rfl, dictGet_dictDel_same _ _⟩
      · intro _
        exact ⟨rfl, rfl⟩
  · have hl' : (acquire_lock svc.locks (lock_key_for request.provider_id
        request.scheduled_date request.scheduled_time) 30 now).1
          = false := by
      cases hv : (acquire_lock svc.locks (lock_key_for request.provider_id
          request.scheduled_date request.scheduled_time) 30 now).1
      · rfl
      · exact absurd hv hl
    rw [create_appointment_contended svc request now hl']
    constructor
    · intro hne
      exact absurd rfl hne
    · intro hcontra
      exact absurd hcontra (by simp)

/-- Empty-state service used by the C3 witness. -/
def c3WitnessSvc : AppointmentService :=
  { availability_service := { slots := [], holds := [] }
    locks := []
    appointments := []
    next_id := 0 }

/-- Booking request used by the C3 witness. -/
def c3WitnessReq : AppointmentCreate :=
  { patient_id := "pat-1"
    provider_id := "prov-1"
    location_id := "loc-1"
    scheduled_date := 10
    scheduled_time := ⟨10, 0⟩
    appointment_type := "follow_up"
    duration_minutes := 30
    reason := none
    notes := none
    telehealth := false }

/-- Witness for C3: booking against an empty catalogue fails with the
unavailable error (not contended), releases the lock key, and leaves
appointments and availability untouched. -/
theorem c3_create_appointment_lock_release_witness :
    (create_appointment c3WitnessSvc c3WitnessReq 0).2.locks
        = dictDel c3WitnessSvc.locks (lock_key_for "prov-1" 10 ⟨10, 0⟩)
    ∧ dictGet (create_appointment c3WitnessSvc c3WitnessReq 0).2.locks
        (lock_key_for "prov-1" 10 ⟨10, 0⟩) = none
    ∧ (create_appointment c3WitnessSvc c3WitnessReq 0).2.appointments
        = c3WitnessSvc.appointments := by
  have h := c3_create_appointment_lock_release_and_atomic_failure
    c3WitnessSvc c3WitnessReq 0
  have heq : (create_appointment c3WitnessSvc c3WitnessReq 0).1
      = Except.error ServiceError.slot_unavailable := rfl
  have hne : (create_appointment c3WitnessSvc c3WitnessReq 0).1
      ≠ Except.error ServiceError.slot_contended := by
    intro hc
    rw [heq] at hc
    exact absurd hc (by simp)
  exact ⟨(h.1 hne).1, (h.1 hne).2, (h.2 heq).1⟩

/-- C1: sequential double-booking prevention end to end. Starting from
any state whose slot store answers Available for the natural key of
req1 and whose lock table has no unexpired lock for that key, booking
req1 succeeds with a Scheduled reservation; booking req2 (same natural
key, any requester) then fails with the slot-unavailable error;
cancelling the first reservation succeeds and makes the natural key
Available (searchable) again; and booking req2 afterwards succeeds
with a Scheduled reservation. -/
theorem c1_sequential_double_booking_prevention
    (s0 : AppointmentService) (req1 req2 : AppointmentCreate)
    (t1 t2 t3 t4 : Nat)
    (hp : req2.provider_id = req1.provider_id)
    (hd : req2.scheduled_date = req1.scheduled_date)
    (ht : req2.scheduled_time = req1.scheduled_time)
    (havail : is_slot_available s0.availability_service.slots
      req1.provider_id req1.scheduled_date req1.scheduled_time = true)
    (hlock : ∀ r, dictGet s0.locks (lock_key_for req1.provider_id
      req1.scheduled_date req1.scheduled_time) = some r →
        r.expires_at ≤ t1) :
    ∃ apt1 s1, create_appointment s0 req1 t1 = (Except.ok apt1, s1)
      ∧ apt1.status = AppointmentStatus.scheduled
      ∧ ∃ s2, create_appointment s1 req2 t2
          = (Except.error ServiceError.slot_unavailable, s2)
        ∧ ∃ s3, cancel_appointment s2 apt1.id none t3 = (Except.ok (), s3)
          ∧ is_slot_available s3.availability_service.slots
              req1.provider_id req1.scheduled_date req1.scheduled_time
                = true
          ∧ ∃ apt4 s4, create_appointment s3 req2 t4
              = (Except.ok apt4, s4)
            ∧ apt4.status = AppointmentStatus.scheduled := by
  have hl1 : (acquire_lock s0.locks (lock_key_for req1.provider_id
      req1.scheduled_date req1.scheduled_time) 30 t1).1 = true := by
    apply (acquire_lock_fst_iff _ _ _ _).mpr
    cases hg : dictGet s0.locks (lock_key_for req1.provider_id
        req1.scheduled_date req1.scheduled_time) with
    | none => exact Or.inl rfl
    | some r => exact Or.inr ⟨r, rfl, hlock r hg⟩
  have hstep1 := create_appointment_ok s0 req1 t1 hl1 havail
  refine ⟨new_appointment req1 (mk_appointment_id s0.next_id) t1,
    (create_appointment s0 req1 t1).2, ?_, rfl, ?_⟩
  · rw [hstep1]
  rw [hstep1]
  dsimp only
  -- step 2: the same natural key is now unavailable, so req2 fails
  have hl2 : (acquire_lock (dictDel s0.locks (lock_key_for
      req1.provider_id req1.scheduled_date req1.scheduled_time))
        (lock_key_for req2.provider_id req2.scheduled_date
          req2.scheduled_time) 30 t2).1 = true := by
    rw [hp, hd, ht]
    exact (acquire_lock_fst_iff _ _ _ _).mpr
      (Or.inl (dictGet_dictDel_same _ _))
  have ha2 : is_slot_available (mark_slot_booked
      s0.availability_service.slots req1.provider_id req1.scheduled_date
      req1.scheduled_time) req2.provider_id req2.scheduled_date
        req2.scheduled_time = false := by
    rw [hp, hd, ht]
    exact is_slot_available_mark_slot_booked _ _ _ _
  have hstep2 := create_appointment_unavailable
    ({ availability_service :=
        { s0.availability_service with
            slots := (mark_slot_booked s0.availability_service.slots
              req1.provider_id req1.scheduled_date req1.scheduled_time) }
       locks := (dictDel s0.locks (lock_key_for req1.provider_id
         req1.scheduled_date req1.scheduled_time))
       appointments := (dictSet s0.appointments
         (mk_appointment_id s0.next_id)
         (new_appointment req1 (mk_appointment_id s0.next_id) t1))
       next_id := s0.next_id + 1 } : AppointmentService) req2 t2 hl2 ha2
  refine ⟨_, hstep2, ?_⟩
  dsimp only
  -- step 3: cancelling the first reservation
  have hg3 : dictGet (dictSet s0.appointments (mk_appointment_id s0.next_id)
      (new_appointment req1 (mk_appointment_id s0.next_id) t1))
        (new_appointment req1 (mk_appointment_id s0.next_id) t1).id
      = some (new_appointment req1 (mk_appointment_id s0.next_id) t1) :=
    dictGet_dictSet_same _ _ _
  have hs3 : ¬(new_appointment req1 (mk_appointment_id s0.next_id)
      t1).status = AppointmentStatus.cancelled := by
    intro hc
    exact absurd hc (by simp [new_appointment])
  have hstep3 := cancel_appointment_ok
    ({ availability_service :=
        { s0.availability_service with
            slots := (mark_slot_booked s0.availability_service.slots
              req1.provider_id req1.scheduled_date req1.scheduled_time) }
       locks := (dictDel (dictDel s0.locks (lock_key_for req1.provider_id
         req1.scheduled_date req1.scheduled_time))
         (lock_key_for req2.provider_id req2.scheduled_date
           req2.scheduled_time))
       appointments := (dictSet s0.appointments
         (mk_appointment_id s0.next_id)
         (new_appointment req1 (mk_appointment_id s0.next_id) t1))
       next_id := s0.next_id + 1 } : AppointmentService)
    (new_appointment req1 (mk_appointment_id s0.next_id) t1).id none t3
    (new_appointment req1 (mk_appointment_id s0.next_id) t1) hg3 hs3
  refine ⟨_, hstep3, ?_, ?_⟩
  · dsimp only
    -- the cancelled reservation's natural key is req1's natural key
    have hkey1 : (new_appointment req1 (mk_appointment_id s0.next_id)
        t1).provider_id = req1.provider_id := rfl
    have hkey2 : (new_appointment req1 (mk_appointment_id s0.next_id)
        t1).scheduled_time.date = req1.scheduled_date := rfl
    have hkey3 : (new_appointment req1 (mk_appointment_id s0.next_id)
        t1).scheduled_time.time = req1.scheduled_time := rfl
    rw [hkey1, hkey2, hkey3]
    exact is_slot_available_mark_slot_available _ _ _ _
      (find?_mark_slot_booked_isSome _ _ _ _
        (is_slot_available_isSome _ _ _ _ havail))
  · -- step 4: booking req2 now succeeds
    have hl4 : (acquire_lock (dictDel (dictDel s0.locks (lock_key_for
        req1.provider_id req1.scheduled_date req1.scheduled_time))
          (lock_key_for req2.provider_id req2.scheduled_date
            req2.scheduled_time))
          (lock_key_for req2.provider_id req2.scheduled_date
            req2.scheduled_time) 30 t4).1 = true := by
      exact (acquire_lock_fst_iff _ _ _ _).mpr
        (Or.inl (dictGet_dictDel_same _ _))
    have ha4 : is_slot_available (mark_slot_available (mark_slot_booked
        s0.availability_service.slots req1.provider_id req1.scheduled_date
        req1.scheduled_time) (new_appointment req1
          (mk_appointment_id s0.next_id) t1).provider_id
        (new_appointment req1 (mk_appointment_id s0.next_id)
          t1).scheduled_time.date
        (new_appointment req1 (mk_appointment_id s0.next_id)
          t1).scheduled_time.time) req2.provider_id req2.scheduled_date
          req2.scheduled_time = true := by
      rw [hp, hd, ht]
      exact is_slot_available_mark_slot_available _ _ _ _
        (find?_mark_slot_booked_isSome _ _ _ _
          (is_slot_available_isSome _ _ _ _ havail))
    have hstep4 := create_appointment_ok
      ({ availability_service :=
          { s0.availability_service with
              slots := (mark_slot_available (mark_slot_booked
                s0.availability_service.slots req1.provider_id
                req1.scheduled_date req1.scheduled_time)
                (new_appointment req1 (mk_appointment_id s0.next_id)
                  t1).provider_id
                (new_appointment req1 (mk_appointment_id s0.next_id)
                  t1).scheduled_time.date
                (new_appointment req1 (mk_appointment_id s0.next_id)
                  t1).scheduled_time.time) }
         locks := (dictDel (dictDel s0.locks (lock_key_for
           req1.provider_id req1.scheduled_date req1.scheduled_time))
           (lock_key_for req2.provider_id req2.scheduled_date
             req2.scheduled_time))
         appointments := (dictSet (dictSet s0.appointments
           (mk_appointment_id s0.next_id)
           (new_appointment req1 (mk_appointment_id s0.next_id) t1))
           (new_appointment req1 (mk_appointment_id s0.next_id) t1).id
           { new_appointment req1 (mk_appointment_id s0.next_id) t1 with
               status := AppointmentStatus.cancelled
               cancellation_reason := none
               cancelled_at := some t3
               updated_at := t3 })
         next_id := s0.next_id + 1 } : AppointmentService) req2 t4 hl4 ha4
    exact ⟨_, _, hstep4, rfl⟩

/-- Available slot used by the C1 witness: (prov-1, day 100, 10:00). -/
def c1WitnessSlot : TimeSlot :=
  { id := "slot-1"
    provider_id := "prov-1"
    provider_name := "Dr. Sarah Johnson"
    location_id := "loc-001"
    location_name := "Downtown Clinic"
    date := 100
    start_time := ⟨10, 0⟩
    end_time := ⟨10, 30⟩
    duration_minutes := 30
    appointment_types := ["new_patient", "follow_up"]
    available := true
    held_by := none
    held_until := none }

/-- Starting state for the C1 witness. -/
def c1WitnessSvc : AppointmentService :=
  { availability_service := { slots := [c1WitnessSlot], holds := [] }
    locks := []
    appointments := []
    next_id := 0 }

/-- Requester R1's booking request for the C1 witness. -/
def c1WitnessReq1 : AppointmentCreate :=
  { patient_id := "R1"
    provider_id := "prov-1"
    location_id := "loc-001"
    scheduled_date := 100
    scheduled_time := ⟨10, 0⟩
    appointment_type := "follow_up"
    duration_minutes := 30
    reason := none
    notes := none
    telehealth := false }

/-- Requester R2's booking request for the C1 witness: same natural
key, different patient. -/
def c1WitnessReq2 : AppointmentCreate :=
  { patient_id := "R2"
    provider_id := "prov-1"
    location_id := "loc-001"
    scheduled_date := 100
    scheduled_time := ⟨10, 0⟩
    appointment_type := "follow_up"
    duration_minutes := 30
    reason := none
    notes := none
    telehealth := false }

/-- Witness for C1 at the concrete one-slot state: the whole
book/conflict/cancel/rebook sequence plays out as claimed. -/
theorem c1_sequential_double_booking_prevention_witness :
    ∃ apt1 s1, create_appointment c1WitnessSvc c1WitnessReq1 0
        = (Except.ok apt1, s1)
      ∧ apt1.status = AppointmentStatus.scheduled
      ∧ ∃ s2, create_appointment s1 c1WitnessReq2 1
          = (Except.error ServiceError.slot_unavailable, s2)
        ∧ ∃ s3, cancel_appointment s2 apt1.id none 2 = (Except.ok (), s3)
          ∧ is_slot_available s3.availability_service.slots
              c1WitnessReq1.provider_id c1WitnessReq1.scheduled_date
              c1WitnessReq1.scheduled_time = true
          ∧ ∃ apt4 s4, create_appointment s3 c1WitnessReq2 3
              = (Except.ok apt4, s4)
            ∧ apt4.status = AppointmentStatus.scheduled := by
  refine c1_sequential_double_booking_prevention c1WitnessSvc
    c1WitnessReq1 c1WitnessReq2 0 1 2 3 rfl rfl rfl (by decide) ?_
  intro r hr
  simp [dictGet, c1WitnessSvc] at hr

/-- C5: reschedule fails atomically. For every existing non-cancelled
reservation, when update_appointment is given a new date/time whose
destination natural key is not Available, the call fails with the
new-slot-unavailable error and the whole service state — the source
slot's Booked status, the reservation's time fields and every other
field — is returned unchanged. -/
theorem c5_reschedule_atomic_failure (svc : AppointmentService)
    (appointment_id : String) (update : AppointmentUpdate) (now : Nat)
    (apt : Appointment)
    (hfound : dictGet svc.appointments appointment_id = some apt)
    (hnc : ¬apt.status = AppointmentStatus.cancelled)
    (hres : update.scheduled_date.isSome = true
      ∨ update.scheduled_time.isSome = true)
    (hunavail : is_slot_available svc.availability_service.slots
      apt.provider_id (update.scheduled_date.getD apt.scheduled_time.date)
      (update.scheduled_time.getD apt.scheduled_time.time) = false) :
    update_appointment svc appointment_id update now
      = (Except.error ServiceError.new_slot_unavailable, svc) := by
  unfold update_appointment
  rw [hfound]
  dsimp only
  rw [if_neg hnc]
  have hcond : (update.scheduled_date.isSome
      || update.scheduled_time.isSome) = true := by
    rcases hres with h | h <;> simp [h]
  rw [if_pos hcond]
  have hneg : (!(is_slot_available svc.availability_service.slots
      apt.provider_id (update.scheduled_date.getD apt.scheduled_time.date)
      (update.scheduled_time.getD apt.scheduled_time.time))) = true := by
    rw [hunavail]
    rfl
  rw [if_pos hneg]

/-- Scheduled reservation used by the C5 witness, occupying
(prov-1, day 100, 10:00). -/
def c5WitnessApt : Appointment :=
  { id := "apt-0"
    patient_id := "pat-1"
    provider_id := "prov-1"
    location_id := "loc-001"
    scheduled_time := ⟨100, ⟨10, 0⟩⟩
    end_time := ⟨100, ⟨10, 30⟩⟩
    appointment_type := "follow_up"
    status := AppointmentStatus.scheduled
    reason := none
    notes := none
    telehealth := false
    telehealth_link := none
    checked_in_at := none
    completed_at := none
    cancelled_at := none
    cancellation_reason := none
    created_at := 0
    updated_at := 0 }

/-- Source slot of the C5 witness, Booked by the reservation. -/
def c5WitnessSlot : TimeSlot :=
  { c1WitnessSlot with available := false }

/-- Service state for the C5 witness: one booked slot, one scheduled
reservation, no slot for the requested destination day 101. -/
def c5WitnessSvc : AppointmentService :=
  { availability_service := { slots := [c5WitnessSlot], holds := [] }
    locks := []
    appointments := [("apt-0", c5WitnessApt)]
    next_id := 1 }

/-- Reschedule request of the C5 witness, targeting a missing slot. -/
def c5WitnessUpd : AppointmentUpdate :=
  { scheduled_date := some 101
    scheduled_time := none
    reason := none
    notes := none }

/-- Witness for C5: rescheduling to an unavailable destination returns
the error and the exact original state. -/
theorem c5_reschedule_atomic_failure_witness :
    update_appointment c5WitnessSvc "apt-0" c5WitnessUpd 7
      = (Except.error ServiceError.new_slot_unavailable, c5WitnessSvc) :=
  c5_reschedule_atomic_failure c5WitnessSvc "apt-0" c5WitnessUpd 7
    c5WitnessApt (by decide) (by decide) (Or.inl (by decide)) (by decide)

/-- C6 counterexample state: a single reservation that is already
Cancelled. -/
def c6CexApt : Appointment :=
  { c5WitnessApt with
      status := AppointmentStatus.cancelled
      cancelled_at := some 1
      cancellation_reason := some "patient request" }

/-- Service state holding only the cancelled reservation. -/
def c6CexSvc : AppointmentService :=
  { availability_service := { slots := [], holds := [] }
    locks := []
    appointments := [("apt-0", c6CexApt)]
    next_id := 1 }

/-- C6 counterexample: the claim says check_in and complete fail with
an invalid-state error when the reservation is Cancelled, but on this
cancelled reservation both calls succeed, and check_in overwrites the
status with CheckedIn. -/
theorem c6_check_in_complete_cancelled_guard_counterexample :
    c6CexApt.status = AppointmentStatus.cancelled
    ∧ (check_in c6CexSvc "apt-0" 5).1 = Except.ok ()
    ∧ (complete c6CexSvc "apt-0" none 5).1 = Except.ok ()
    ∧ dictGet (check_in c6CexSvc "apt-0" 5).2.appointments "apt-0"
        = some { c6CexApt with
            status := AppointmentStatus.checked_in
            checked_in_at := some 5
            updated_at := 5 } := by
  refine ⟨rfl, rfl, rfl, ?_⟩
  decide

/-- C6 amended: check_in and complete fail with the not-found error
when no reservation with the given id exists (leaving the state
unchanged); otherwise — regardless of the current status, including
Cancelled — check_in sets status CheckedIn stamping checked_in_at, and
complete sets status Completed stamping completed_at (overwriting
notes only when the argument is truthy); neither changes any slot's
availability. -/
theorem c6_check_in_complete_guards_amended (svc : AppointmentService)
    (appointment_id : String) (notes : Option String) (now : Nat) :
    (dictGet svc.appointments appointment_id = none →
      check_in svc appointment_id now
          = (Except.error ServiceError.appointment_not_found, svc)
        ∧ complete svc appointment_id notes now
            = (Except.error ServiceError.appointment_not_found, svc))
    ∧ (∀ apt, dictGet svc.appointments appointment_id = some apt →
        (check_in svc appointment_id now).1 = Except.ok ()
        ∧ dictGet (check_in svc appointment_id now).2.appointments
            appointment_id
            = some { apt with
                status := AppointmentStatus.checked_in
                checked_in_at := some now
                updated_at := now }
        ∧ (check_in svc appointment_id now).2.availability_service.slots
            = svc.availability_service.slots
        ∧ (complete svc appointment_id notes now).1 = Except.ok ()
        ∧ dictGet (complete svc appointment_id notes now).2.appointments
            appointment_id
            = some { apt with
                status := AppointmentStatus.completed
                completed_at := some now
                notes := (if strTruthy notes then notes else apt.notes)
                updated_at := now }
        ∧ (complete svc appointment_id notes
            now).2.availability_service.slots
              = svc.availability_service.slots) := by
  constructor
  · intro hnone
    unfold check_in complete
    rw [hnone]
    exact ⟨rfl, rfl⟩
  · intro apt hsome
    unfold check_in complete
    rw [hsome]
    dsimp only
    refine ⟨rfl, dictGet_dictSet_same _ _ _, rfl, rfl, ?_, ?_⟩
    · by_cases hn : strTruthy notes = true
      · rw [if_pos hn, if_pos hn]
        exact dictGet_dictSet_same _ _ _
      · rw [if_neg hn, if_neg hn]
        exact dictGet_dictSet_same _ _ _
    · rfl

/-- Witness for the amended C6 at the cancelled-reservation state and
at a missing id: both branches of the amended claim fire. -/
theorem c6_check_in_complete_guards_amended_witness :
    check_in c6CexSvc "apt-missing" 5
        = (Except.error ServiceError.appointment_not_found, c6CexSvc)
    ∧ (check_in c6CexSvc "apt-0" 5).1 = Except.ok ()
    ∧ dictGet (check_in c6CexSvc "apt-0" 5).2.appointments "apt-0"
        = some { c6CexApt with
            status := AppointmentStatus.checked_in
            checked_in_at := some 5
            updated_at := 5 }
    ∧ (complete c6CexSvc "apt-0" none 5).1 = Except.ok () := by
  have h := c6_check_in_complete_guards_amended c6CexSvc "apt-missing"
    none 5
  have h2 := c6_check_in_complete_guards_amended c6CexSvc "apt-0" none 5
  have hm := (h.1 (by decide)).1
  have hs := h2.2 c6CexApt (by decide)
  exact ⟨hm, hs.1, hs.2.1, hs.2.2.2.1⟩

theorem apply_update_tail_eq (a : Appointment) (u : AppointmentUpdate)
    (now : Nat) :
    apply_update_tail a u now
      = { a with
          reason := (if strTruthy u.reason then u.reason else a.reason)
          notes := (if strTruthy u.notes then u.notes else a.notes)
          updated_at := now } := by
  unfold apply_update_tail
  by_cases h1 : strTruthy u.reason = true <;>
    by_cases h2 : strTruthy u.notes = true <;>
      simp [h1, h2]

/-- C10: implicit frame property of update_appointment. No call ever
changes any stored appointment's end_time or status (even when a new
date/time rewrites scheduled_time), and when the request carries
neither a new date nor a new time, no slot changes and every stored
appointment differs from before at most in reason, notes and
updated_at. -/
theorem c10_update_appointment_frame (svc : AppointmentService)
    (appointment_id : String) (update : AppointmentUpdate) (now : Nat) :
    (∀ k, (dictGet (update_appointment svc appointment_id update
          now).2.appointments k).map (fun a => (a.end_time, a.status))
        = (dictGet svc.appointments k).map
            (fun a => (a.end_time, a.status)))
    ∧ (update.scheduled_date = none → update.scheduled_time = none →
        (update_appointment svc appointment_id update
            now).2.availability_service.slots
          = svc.availability_service.slots
        ∧ ∀ k a, dictGet svc.appointments k = some a →
            ∃ r n u, dictGet (update_appointment svc appointment_id
                update now).2.appointments k
              = some { a with reason := r, notes := n, updated_at := u })
      := by
  unfold update_appointment
  cases hg : dictGet svc.appointments appointment_id with
  | none =>
    dsimp only
    refine ⟨fun k => rfl, fun _ _ => ⟨rfl, fun k a hk => ?_⟩⟩
    exact ⟨a.reason, a.notes, a.updated_at, hk⟩
  | some apt =>
    dsimp only
    by_cases hcanc : apt.status = AppointmentStatus.cancelled
    · rw [if_pos hcanc]
      refine ⟨fun k => rfl, fun _ _ => ⟨rfl, fun k a hk => ?_⟩⟩
      exact ⟨a.reason, a.notes, a.updated_at, hk⟩
    · rw [if_neg hcanc]
      by_cases hresch : (update.scheduled_date.isSome
          || update.scheduled_time.isSome) = true
      · rw [if_pos hresch]
        by_cases hav : (!(is_slot_available svc.availability_service.slots
            apt.provider_id
            (update.scheduled_date.getD apt.scheduled_time.date)
            (update.scheduled_time.getD apt.scheduled_time.time))) = true
        · rw [if_pos hav]
          refine ⟨fun k => rfl, fun _ _ => ⟨rfl, fun k a hk => ?_⟩⟩
          exact ⟨a.reason, a.notes, a.updated_at, hk⟩
        · rw [if_neg hav]
          dsimp only
          constructor
          · intro k
            by_cases hk : k = appointment_id
            · subst hk
              rw [dictGet_dictSet_same, hg, apply_update_tail_eq]
              rfl
            · rw [dictGet_dictSet_ne _ _ _ _ hk]
          · intro hd ht
            rw [hd, ht] at hresch
            exact absurd hresch (by simp)
      · rw [if_neg hresch]
        dsimp only
        constructor
        · intro k
          by_cases hk : k = appointment_id
          · subst hk
            rw [dictGet_dictSet_same, hg, apply_update_tail_eq]
            rfl
          · rw [dictGet_dictSet_ne _ _ _ _ hk]
        · intro hd ht
          refine ⟨rfl, fun k a hk => ?_⟩
          by_cases hkid : k = appointment_id
          · subst hkid
            rw [hk] at hg
            injection hg with hg'
            subst hg'
            refine ⟨(if strTruthy update.reason then update.reason
                else a.reason),
              (if strTruthy update.notes then update.notes else a.notes),
              now, ?_⟩
            rw [dictGet_dictSet_same, apply_update_tail_eq]
          · refine ⟨a.reason, a.notes, a.updated_at, ?_⟩
            rw [dictGet_dictSet_ne _ _ _ _ hkid]
            exact hk

/-- Plain update request (no new date/time) for the C10 witness. -/
def c10WitnessUpd : AppointmentUpdate :=
  { scheduled_date := none
    scheduled_time := none
    reason := some "new reason"
    notes := none }

/-- Witness for C10 at the single-reservation state: end_time and
status survive a plain update, slots are untouched, and the stored
record differs only in reason / notes / updated_at. -/
theorem c10_update_appointment_frame_witness :
    ((dictGet (update_appointment c5WitnessSvc "apt-0" c10WitnessUpd
        9).2.appointments "apt-0").map (fun a => (a.end_time, a.status))
      = some (⟨100, ⟨10, 30⟩⟩, AppointmentStatus.scheduled))
    ∧ (update_appointment c5WitnessSvc "apt-0" c10WitnessUpd
        9).2.availability_service.slots
      = c5WitnessSvc.availability_service.slots
    ∧ ∃ r n u, dictGet (update_appointment c5WitnessSvc "apt-0"
        c10WitnessUpd 9).2.appointments "apt-0"
      = some { c5WitnessApt with reason := r, notes := n, updated_at := u }
      := by
  have h := c10_update_appointment_frame c5WitnessSvc "apt-0"
    c10WitnessUpd 9
  refine ⟨(h.1 "apt-0").trans (by decide), (h.2 rfl rfl).1, ?_⟩
  exact (h.2 rfl rfl).2 "apt-0" c5WitnessApt (by decide)

/-- C9: a waitlist position is assigned once and never renumbered.
The entry created by add_to_waitlist gets position 1 + the number of
existing Waiting entries for the same provider, and neither another
join (with a fresh id), nor leave, nor notify changes the position of
any existing entry. -/
theorem c9_waitlist_position_stable (svc : WaitlistService)
    (request : WaitlistRequest) (entry_id : String) (now now2 : Nat) :
    ((add_to_waitlist svc request now).1.position
      = (svc.entries.filter (fun e =>
          e.2.provider_id == request.provider_id
            && e.2.status == "waiting")).length + 1)
    ∧ (dictGet svc.entries (mk_waitlist_id svc.next_id) = none →
        ∀ k e, dictGet svc.entries k = some e →
          ∃ e2, dictGet (add_to_waitlist svc request now).2.entries k
              = some e2
            ∧ e2.position = e.position)
    ∧ (∀ k e, dictGet svc.entries k = some e →
        ∃ e2, dictGet (remove_from_waitlist svc entry_id).2.entries k
            = some e2
          ∧ e2.position = e.position)
    ∧ (∀ k e, dictGet svc.entries k = some e →
        ∃ e2, dictGet (notify_patient svc entry_id now2).2.entries k
            = some e2
          ∧ e2.position = e.position) := by
  refine ⟨rfl, ?_, ?_, ?_⟩
  · intro hfresh k e hk
    have hkne : ¬(k = mk_waitlist_id svc.next_id) := by
      intro hc
      rw [hc, hfresh] at hk
      exact absurd hk (by simp)
    refine ⟨e, ?_, rfl⟩
    show dictGet (dictSet svc.entries (mk_waitlist_id svc.next_id) _) k
      = some e
    rw [dictGet_dictSet_ne _ _ _ _ hkne]
    exact hk
  · intro k e hk
    unfold remove_from_waitlist
    cases hg : dictGet svc.entries entry_id with
    | none => exact ⟨e, hk, rfl⟩
    | some entry =>
      dsimp only
      by_cases hkid : k = entry_id
      · subst hkid
        rw [hk] at hg
        injection hg with hg'
        subst hg'
        refine ⟨{ e with status := "removed" }, ?_, rfl⟩
        exact dictGet_dictSet_same _ _ _
      · refine ⟨e, ?_, rfl⟩
        rw [dictGet_dictSet_ne _ _ _ _ hkid]
        exact hk
  · intro k e hk
    unfold notify_patient
    cases hg : dictGet svc.entries entry_id with
    | none => exact ⟨e, hk, rfl⟩
    | some entry =>
      dsimp only
      by_cases hkid : k = entry_id
      · subst hkid
        rw [hk] at hg
        injection hg with hg'
        subst hg'
        refine ⟨{ e with status := "notified", notified_at := some now2 },
          ?_, rfl⟩
        exact dictGet_dictSet_same _ _ _
      · refine ⟨e, ?_, rfl⟩
        rw [dictGet_dictSet_ne _ _ _ _ hkid]
        exact hk

/-- Waiting entry at position 1 used by the C9 witness. -/
def c9WitnessEntry : WaitlistEntry :=
  { id := "wl-0"
    patient_id := "pat-1"
    provider_id := "prov-1"
    location_id := some "loc-001"
    preferred_dates := [100]
    preferred_time_of_day := some "morning"
    appointment_type := "follow_up"
    urgency := "normal"
    status := "waiting"
    position := 1
    created_at := 0
    notified_at := none
    booked_appointment_id := none }

/-- Waitlist state with one Waiting entry for prov-1. -/
def c9WitnessSvc : WaitlistService :=
  { entries := [("wl-0", c9WitnessEntry)]
    next_id := 1 }

/-- Join request for the C9 witness, same provider. -/
def c9WitnessReq : WaitlistRequest :=
  { patient_id := "pat-2"
    provider_id := "prov-1"
    location_id := none
    preferred_dates := []
    preferred_time_of_day := none
    appointment_type := "follow_up"
    urgency := "normal"
    notes := none }

/-- Witness for C9: the new entry gets position 2, and join, leave and
notify all keep the existing entry at position 1. -/
theorem c9_waitlist_position_stable_witness :
    (add_to_waitlist c9WitnessSvc c9WitnessReq 5).1.position = 2
    ∧ (∃ e2, dictGet (add_to_waitlist c9WitnessSvc c9WitnessReq
        5).2.entries "wl-0" = some e2 ∧ e2.position = 1)
    ∧ (∃ e2, dictGet (remove_from_waitlist c9WitnessSvc
        "wl-0").2.entries "wl-0" = some e2 ∧ e2.position = 1)
    ∧ (∃ e2, dictGet (notify_patient c9WitnessSvc "wl-0" 6).2.entries
        "wl-0" = some e2 ∧ e2.position = 1) := by
  have h := c9_waitlist_position_stable c9WitnessSvc c9WitnessReq
    "wl-0" 5 6
  have hpos : (add_to_waitlist c9WitnessSvc c9WitnessReq 5).1.position
      = 2 := h.1.trans (by decide)
  have hget : dictGet c9WitnessSvc.entries "wl-0" = some c9WitnessEntry :=
    by decide
  obtain ⟨e2, he2, hp2⟩ := h.2.1 (by decide) "wl-0" c9WitnessEntry hget
  obtain ⟨e3, he3, hp3⟩ := h.2.2.1 "wl-0" c9WitnessEntry hget
  obtain ⟨e4, he4, hp4⟩ := h.2.2.2 "wl-0" c9WitnessEntry hget
  exact ⟨hpos, ⟨e2, he2, hp2.trans rfl⟩, ⟨e3, he3, hp3.trans rfl⟩,
    ⟨e4, he4, hp4.trans rfl⟩⟩

/-- Available slot (prov-1, day 100, 10:00) used by the C4 evidence. -/
def c4Slot : TimeSlot :=
  { id := "slot-1"
    provider_id := "prov-1"
    provider_name := "Dr. Sarah Johnson"
    location_id := "loc-001"
    location_name := "Downtown Clinic"
    date := 100
    start_time := ⟨10, 0⟩
    end_time := ⟨10, 30⟩
    duration_minutes := 30
    appointment_types := ["new_patient", "follow_up"]
    available := true
    held_by := none
    held_until := none }

/-- Availability state with the single available slot. -/
def c4Avail : AvailabilityService := { slots := [c4Slot], holds := [] }

/-- Appointment service whose availability state is the result of P1
holding slot-1 for 10 minutes at time 0 (hold expires at 600). -/
def c4Svc : AppointmentService :=
  { availability_service := (hold_slot c4Avail "slot-1" "P1" 10 0).2
    locks := []
    appointments := []
    next_id := 0 }

/-- Booking request by P2 (not the holder) for the held slot's natural
key. -/
def c4Req : AppointmentCreate :=
  { patient_id := "P2"
    provider_id := "prov-1"
    location_id := "loc-001"
    scheduled_date := 100
    scheduled_time := ⟨10, 0⟩
    appointment_type := "follow_up"
    duration_minutes := 30
    reason := none
    notes := none
    telehealth := false }

/-- C4 (evidence of the code bug): P1's hold on slot-1 is installed
and unexpired at time 0 (held_by = P1, held_until = 600 > 0), yet
create_appointment by P2 at time 0 succeeds, because hold_slot leaves
slot.available = True and is_slot_available reads only that flag. The
claim says the booking must fail while the hold is unexpired. -/
theorem c4_unexpired_hold_does_not_block_booking :
    (hold_slot c4Avail "slot-1" "P1" 10 0).1
        = Except.ok (⟨"slot-1", "P1", 0, 600, "active"⟩ : SlotHold)
    ∧ (c4Svc.availability_service.slots.find?
        (fun s => s.id == "slot-1")).map
          (fun s => (s.available, s.held_by, s.held_until))
        = some (true, some "P1", some 600)
    ∧ (0 : Nat) < 600
    ∧ (create_appointment c4Svc c4Req 0).1
        = Except.ok (new_appointment c4Req (mk_appointment_id 0) 0)
    ∧ (new_appointment c4Req (mk_appointment_id 0) 0).patient_id = "P2"
    ∧ (new_appointment c4Req (mk_appointment_id 0) 0).status
        = AppointmentStatus.scheduled := by
  exact ⟨rfl, by decide, by decide, rfl, rfl, rfl⟩

/-- Number of active holds on a slot, following C7's definition of
active: status "active" (neither released, expired nor converted —
the source never rewrites a SlotHold's status) and not yet past its
expiry. -/
def count_active_holds (holds : List SlotHold) (slot_id : String)
    (now : Nat) : Nat :=
  (holds.filter (fun h => h.slot_id == slot_id && h.status == "active"
    && decide (now < h.expires_at))).length

/-- Availability state after P1 holds slot-1 at time 0 for 10 min. -/
def c7AfterHold1 : AvailabilityService :=
  (hold_slot ({ slots := [c4Slot], holds := [] } : AvailabilityService)
    "slot-1" "P1" 10 0).2

/-- C7 (evidence of the code bug): at time 1 the slot is Held by P1
with an unexpired hold, yet a second hold request by P2 succeeds
(violating "taken only from Available"), overwrites the holder, and
leaves two active unexpired hold records for the same slot (violating
"at most one active hold per slot"). -/
theorem c7_second_hold_on_held_slot_succeeds :
    ((c7AfterHold1.slots.find? (fun s => s.id == "slot-1")).map
        (fun s => (s.held_by, s.held_until)) = some (some "P1", some 600))
    ∧ (1 : Nat) < 600
    ∧ (hold_slot c7AfterHold1 "slot-1" "P2" 10 1).1
        = Except.ok (⟨"slot-1", "P2", 1, 601, "active"⟩ : SlotHold)
    ∧ ((hold_slot c7AfterHold1 "slot-1" "P2" 10 1).2.slots.find?
        (fun s => s.id == "slot-1")).map (fun s => s.held_by)
        = some (some "P2")
    ∧ count_active_holds (hold_slot c7AfterHold1 "slot-1" "P2"
        10 1).2.holds "slot-1" 1 = 2 := by
  exact ⟨by decide, by decide, rfl, by decide, by decide⟩

theorem decide_le_eq_not_decide_lt (a b : Nat) :
    decide (a ≤ b) = !decide (b < a) := by
  by_cases hc : b < a
  · simp [hc, Nat.not_le.mpr hc]
  · simp [hc, Nat.le_of_not_lt hc]

/-- The spec-side search predicate (refinement target for C8), written
from the spec's words: only Available slots, date within
[start_date, end_date], matching provider / location when supplied,
reservation type contained in the slot's type set when supplied, and
the time-of-day bucket morning (start hour < 12), afternoon
(12 ≤ hour < 17), evening (hour ≥ 17). -/
def spec_search_matches (search : AvailabilitySearch) (slot : TimeSlot) :
    Bool :=
  slot.available
  && decide (search.start_date ≤ slot.date)
  && decide (slot.date ≤ search.end_date)
  && (match search.provider_id with
      | some p => slot.provider_id == p
      | none => true)
  && (match search.location_id with
      | some l => slot.location_id == l
      | none => true)
  && (match search.appointment_type with
      | some a => slot.appointment_types.contains a
      | none => true)
  && (match search.time_of_day with
      | some tod =>
        if tod == "morning" then decide (slot.start_time.hour < 12)
        else if tod == "afternoon" then
          decide (12 ≤ slot.start_time.hour)
            && decide (slot.start_time.hour < 17)
        else decide (17 ≤ slot.start_time.hour)
      | none => true)

theorem search_keep_eq_spec (search : AvailabilitySearch)
    (hp : search.provider_id ≠ some "")
    (hl : search.location_id ≠ some "")
    (ha : search.appointment_type ≠ some "")
    (ht : search.time_of_day = none ∨ search.time_of_day = some "morning"
      ∨ search.time_of_day = some "afternoon"
      ∨ search.time_of_day = some "evening")
    (slot : TimeSlot) :
    search_keep search slot = spec_search_matches search slot := by
  unfold search_keep spec_search_matches
  have hdate1 : (!decide (slot.date < search.start_date))
      = decide (search.start_date ≤ slot.date) :=
    (decide_le_eq_not_decide_lt _ _).symm
  have hdate2 : (!decide (search.end_date < slot.date))
      = decide (slot.date ≤ search.end_date) :=
    (decide_le_eq_not_decide_lt _ _).symm
  have hpcomp : (!(match search.provider_id with
      | some p => !(p == "") && !(slot.provider_id == p)
      | none => false))
      = (match search.provider_id with
         | some p => slot.provider_id == p
         | none => true) := by
    cases hpo : search.provider_id with
    | none => rfl
    | some p =>
      have hpe : (p == "") = false := by
        simp only [beq_eq_false_iff_ne, ne_eq]
        intro hc
        exact hp (by rw [hpo, hc])
      simp [hpe]
  have hlcomp : (!(match search.location_id with
      | some l => !(l == "") && !(slot.location_id == l)
      | none => false))
      = (match search.location_id with
         | some l => slot.location_id == l
         | none => true) := by
    cases hlo : search.location_id with
    | none => rfl
    | some l =>
      have hle : (l == "") = false := by
        simp only [beq_eq_false_iff_ne, ne_eq]
        intro hc
        exact hl (by rw [hlo, hc])
      simp [hle]
  have hacomp : (!(match search.appointment_type with
      | some a => !(a == "") && !(slot.appointment_types.contains a)
      | none => false))
      = (match search.appointment_type with
         | some a => slot.appointment_types.contains a
         | none => true) := by
    cases hao : search.appointment_type with
    | none => rfl
    | some a =>
      have hae : (a == "") = false := by
        simp only [beq_eq_false_iff_ne, ne_eq]
        intro hc
        exact ha (by rw [hao, hc])
      simp [hae]
  have htcomp : (!(match search.time_of_day with
      | some tod =>
        !(tod == "") &&
          ((tod == "morning" && decide (12 ≤ slot.start_time.hour))
           || (tod == "afternoon"
                && (decide (slot.start_time.hour < 12)
                    || decide (17 ≤ slot.start_time.hour)))
           || (tod == "evening" && decide (slot.start_time.hour < 17)))
      | none => false))
      = (match search.time_of_day with
         | some tod =>
           if tod == "morning" then decide (slot.start_time.hour < 12)
           else if tod == "afternoon" then
             decide (12 ≤ slot.start_time.hour)
               && decide (slot.start_time.hour < 17)
           else decide (17 ≤ slot.start_time.hour)
         | none => true) := by
    rcases ht with h | h | h | h <;> rw [h]
    · rfl
    · simp [decide_le_eq_not_decide_lt]
    · simp [decide_le_eq_not_decide_lt]
    · simp [decide_le_eq_not_decide_lt]
  rw [hdate1, hdate2, hpcomp, hlcomp, hacomp, htcomp]

/-- C8: search contract. For every catalogue and well-formed search
request (string filters are not the empty string, the time-of-day
filter is absent or one of the three buckets), search_slots returns
exactly the Available slots satisfying every supplied filter — with
the spec's positive reading of each filter — sorted ascending by
(date, start_time) and truncated to the caller-supplied limit. -/
theorem c8_search_contract (slots : List TimeSlot)
    (search : AvailabilitySearch)
    (hp : search.provider_id ≠ some "")
    (hl : search.location_id ≠ some "")
    (ha : search.appointment_type ≠ some "")
    (ht : search.time_of_day = none ∨ search.time_of_day = some "morning"
      ∨ search.time_of_day = some "afternoon"
      ∨ search.time_of_day = some "evening") :
    search_slots slots search
        = ((slots.filter (spec_search_matches search)).insertionSort
            slotOrd).take search.limit
    ∧ List.Sorted slotOrd (search_slots slots search)
    ∧ (search_slots slots search).length ≤ search.limit
    ∧ ∀ slot ∈ search_slots slots search,
        spec_search_matches search slot = true := by
  have hfe : slots.filter (search_keep search)
      = slots.filter (spec_search_matches search) :=
    List.filter_congr (fun x _ => search_keep_eq_spec search hp hl ha ht x)
  refine ⟨?_, ?_, ?_, ?_⟩
  · unfold search_slots
    rw [hfe]
  · unfold search_slots
    exact (List.sorted_insertionSort slotOrd _).sublist
      (List.take_sublist _ _)
  · unfold search_slots
    exact List.length_take_le _ _
  · intro slot hmem
    unfold search_slots at hmem
    have h1 := List.mem_of_mem_take hmem
    have h2 := (List.perm_insertionSort slotOrd _).subset h1
    rw [hfe] at h2
    exact (List.mem_filter.mp h2).2

/-- Search request used by the C8 witness: provider prov-1, days
[100, 100], morning bucket, limit 20. -/
def c8WitnessSearch : AvailabilitySearch :=
  { specialty := none
    location_id := none
    provider_id := some "prov-1"
    start_date := 100
    end_date := 100
    time_of_day := some "morning"
    appointment_type := some "follow_up"
    limit := 20 }

/-- Witness for C8 on the one-slot catalogue: the refinement equality,
the limit bound, and the membership property all hold concretely. -/
theorem c8_search_contract_witness :
    search_slots [c1WitnessSlot] c8WitnessSearch
        = (([c1WitnessSlot].filter (spec_search_matches
            c8WitnessSearch)).insertionSort slotOrd).take
              c8WitnessSearch.limit
    ∧ (search_slots [c1WitnessSlot] c8WitnessSearch).length
        ≤ c8WitnessSearch.limit
    ∧ ∀ slot ∈ search_slots [c1WitnessSlot] c8WitnessSearch,
        spec_search_matches c8WitnessSearch slot = true := by
  have h := c8_search_contract [c1WitnessSlot] c8WitnessSearch
    (by simp [c8WitnessSearch]) (by simp [c8WitnessSearch])
    (by simp [c8WitnessSearch])
    (Or.inr (Or.inl rfl))
  exact ⟨h.1, h.2.2.1, h.2.2.2⟩

end PAS
